import Mathlib

set_option linter.unusedVariables false

/-!
Verification of the cnw-license-sdk Go library (package cnwlicense and
cnwlicense/noderegistry) against its natural-language specification.

The Go code is shallowly embedded: pure functions become Lean functions,
the stateful node registry becomes explicit state passing over a list of
records, machine integers become Int, time.Time instants become Int
(nanoseconds since epoch; the zero value is 0), and external effects
(HTTP round trips, Ed25519, base64, JSON parsing, runtime.NumCPU) become
explicit parameters so that the library's own control flow is what is
being verified.
-/

/-- A value stored in a Go map[string]interface{} features map.  JSON
decoding produces float64 (modelled as a rational number); Go callers may
also store int or int64; anything else is treated by toInt as 0. -/
inductive FeatVal
  | num (q : ℚ)
  | intVal (n : ℤ)
  | int64Val (n : ℤ)
  | otherVal
  deriving DecidableEq, Repr

/-- Go conversion int(f) for a float64 f: truncation toward zero. -/
def truncTowardZero (q : ℚ) : ℤ := Int.tdiv q.num q.den

/-- toInt from license.go: float64 truncates toward zero, int and int64
pass through, any other dynamic type yields 0. -/
def toInt : FeatVal → ℤ
  | .num q => truncTowardZero q
  | .intVal n => n
  | .int64Val n => n
  | .otherVal => 0

/-- A features map; Go map modelled as an association list with distinct
keys, looked up with List.lookup. -/
abbrev Features := List (String × FeatVal)

/-- HardwareLimits from models.go: 0 means unlimited. -/
structure HardwareLimits where
  maxCPUPerNode : ℤ
  maxNodes : ℤ
  deriving DecidableEq, Repr

/-- ExtractHardwareLimits from license.go: nil features give zero limits;
otherwise each of the two recognized keys is coerced with toInt when
present and left 0 when absent. -/
def ExtractHardwareLimits (features : Option Features) : HardwareLimits :=
  match features with
  | none => ⟨0, 0⟩
  | some fs =>
    { maxCPUPerNode := ((fs.lookup "max_cpu_per_node").map toInt).getD 0
      maxNodes := ((fs.lookup "max_nodes").map toInt).getD 0 }

/-- Hardware limit errors, carrying the live count and the configured
limit exactly as the Go fmt.Errorf wrapping of the sentinels does. -/
inductive LimitErr
  | cpuLimitExceeded (cpuCount limit : ℤ)
  | nodeLimitExceeded (nodeCount limit : ℤ)
  deriving DecidableEq, Repr

/-- CheckCPU from license.go; runtime.NumCPU() is the numCPU parameter. -/
def CheckCPU (limits : HardwareLimits) (numCPU : ℤ) : Option LimitErr :=
  if limits.maxCPUPerNode ≤ 0 then none
  else if numCPU > limits.maxCPUPerNode then
    some (.cpuLimitExceeded numCPU limits.maxCPUPerNode)
  else none

/-- CheckNodeCount from license.go. -/
def CheckNodeCount (limits : HardwareLimits) (currentNodes : ℤ) : Option LimitErr :=
  if limits.maxNodes ≤ 0 then none
  else if currentNodes > limits.maxNodes then
    some (.nodeLimitExceeded currentNodes limits.maxNodes)
  else none

/-- ServerError from errors.go: the structured error body returned by the
CNW License Server together with the HTTP status. -/
structure ServerError where
  statusCode : ℤ
  code : String
  message : String
  deriving DecidableEq, Repr

/-- The sentinel errors that mapServerError can map a server error to. -/
inductive Sentinel
  | licenseNotFound
  | licenseInactive
  | licenseExpired
  | activationLimit
  deriving DecidableEq, Repr

/-- The error value produced by mapServerError: either a mappedError
wrapping a sentinel together with the original ServerError, or the bare
ServerError when the code is unrecognized. -/
inductive MappedResult
  | mapped (sentinel : Sentinel) (server : ServerError)
  | unmapped (se : ServerError)
  deriving DecidableEq, Repr

/-- mapServerError from errors.go: switch on the server code, with the
FORBIDDEN case split on whether the message equals "license expired". -/
def mapServerError (se : ServerError) : MappedResult :=
  if se.code = "NOT_FOUND" then .mapped .licenseNotFound se
  else if se.code = "FORBIDDEN" then
    if se.message = "license expired" then .mapped .licenseExpired se
    else .mapped .licenseInactive se
  else if se.code = "ACTIVATION_LIMIT" then .mapped .activationLimit se
  else .unmapped se

/-- Go errors.Is(err, sentinel) on a mapServerError result: mappedError.Is
compares the target with the stored sentinel; a bare ServerError value has
no Is method and matches no sentinel. -/
def errIsSentinel (e : MappedResult) (target : Sentinel) : Bool :=
  match e with
  | .mapped s _ => decide (s = target)
  | .unmapped _ => false

/-- Go errors.As(err, target) for target of type **ServerError:
mappedError.As hands out the stored original server error, and a bare
ServerError matches itself. -/
def errAsServerError (e : MappedResult) : Option ServerError :=
  match e with
  | .mapped _ se => some se
  | .unmapped se => some se

/-- OfflineLicenseData from models.go; timestamps are Int instants whose
Go time.Time zero value is 0. -/
structure OfflineLicenseData where
  licenseKey : String
  companyId : String
  appId : String
  plan : String
  features : Option Features
  expiresAt : ℤ
  issuedAt : ℤ
  deriving DecidableEq, Repr

/-- OfflineLicenseFile from models.go: the outer envelope.  The license
field keeps the raw JSON bytes (a byte list); an absent field decodes to
the empty list / empty string. -/
structure OfflineLicenseFile where
  license : List ℕ
  signature : String
  publicKey : String
  deriving DecidableEq, Repr

/-- The sentinel errors of offline verification (errors.go). -/
inductive VerifyErr
  | licenseFileInvalid
  | publicKeyInvalid
  | signatureInvalid
  | licenseExpired
  deriving DecidableEq, Repr

/-- The Go pair (OfflineLicenseData*, error) returned by Verify: both
components may be present at once (the expired case). -/
structure VerifyResult where
  data : Option OfflineLicenseData
  err : Option VerifyErr
  deriving DecidableEq, Repr

/-- The external primitives Verify calls into: JSON envelope parsing,
base64 decoding, ed25519.Verify and JSON payload parsing.  They are
library code outside the repository, so they are parameters of the
embedding. -/
structure CryptoEnv where
  parseEnvelope : List ℕ → Option OfflineLicenseFile
  b64Decode : String → Option (List ℕ)
  edVerify : List ℕ → List ℕ → List ℕ → Bool
  parseData : List ℕ → Option OfflineLicenseData

/-- OfflineValidator from offline.go: carries only the optional trusted
base64 public key. -/
structure OfflineValidator where
  trustedPublicKey : String
  deriving DecidableEq, Repr

/-- OfflineValidator.Verify from offline.go, step for step: parse the
envelope, check completeness, resolve the public key (the configured
trusted key overrides the embedded one when non-empty), base64-decode key
and signature, check the 32-byte key length, verify the signature over
the raw license bytes, parse the payload, and finally check expiration,
returning the parsed data alongside the expired error. -/
def OfflineValidator.Verify (env : CryptoEnv) (now : ℤ)
    (v : OfflineValidator) (raw : List ℕ) : VerifyResult :=
  match env.parseEnvelope raw with
  | none => ⟨none, some .licenseFileInvalid⟩
  | some file =>
    if file.license.length = 0 ∨ file.signature = "" then
      ⟨none, some .licenseFileInvalid⟩
    else
      let pubKeyBase64 := if v.trustedPublicKey ≠ "" then v.trustedPublicKey
                          else file.publicKey
      if pubKeyBase64 = "" then ⟨none, some .publicKeyInvalid⟩
      else
        match env.b64Decode pubKeyBase64 with
        | none => ⟨none, some .publicKeyInvalid⟩
        | some pubKeyBytes =>
          if pubKeyBytes.length ≠ 32 then ⟨none, some .publicKeyInvalid⟩
          else
            match env.b64Decode file.signature with
            | none => ⟨none, some .signatureInvalid⟩
            | some sigBytes =>
              if env.edVerify pubKeyBytes file.license sigBytes then
                match env.parseData file.license with
                | none => ⟨none, some .licenseFileInvalid⟩
                | some data =>
                  if data.expiresAt ≠ 0 ∧ data.expiresAt < now then
                    ⟨some data, some .licenseExpired⟩
                  else ⟨some data, none⟩
              else ⟨none, some .signatureInvalid⟩

/-- NodeInfo from noderegistry/registry.go; the two timestamps are Int
instants. -/
structure NodeInfo where
  fingerprint : String
  hostname : String
  ip : String
  os : String
  licenseKey : String
  registeredAt : ℤ
  lastSeenAt : ℤ
  deriving DecidableEq, Repr

/-- The stored registry content, one record per fingerprint, in storage
(insertion) order. -/
abbrev RegistryState := List NodeInfo

/-- PostgresRegistry.Register from noderegistry/postgres.go: INSERT with
ON CONFLICT (fingerprint) DO UPDATE of hostname/ip/os/license_key/
last_seen_at, RETURNING registered_at and last_seen_at, which the Go code
scans back into the input record before returning it. -/
def pgRegister (st : RegistryState) (node : NodeInfo) (now : ℤ) :
    RegistryState × NodeInfo :=
  match st.find? (fun r => r.fingerprint == node.fingerprint) with
  | some existing =>
    let stored : NodeInfo :=
      { node with registeredAt := existing.registeredAt, lastSeenAt := now }
    (st.map (fun r => if r.fingerprint == node.fingerprint then stored else r),
     stored)
  | none =>
    let stored : NodeInfo := { node with registeredAt := now, lastSeenAt := now }
    (st ++ [stored], stored)

/-- MongoRegistry.Register: FindOneAndUpdate upsert by fingerprint with
Set of hostname/ip/os/license_key/last_seen_at and SetOnInsert of
registered_at, ReturnDocument After, so the returned record is the
document as stored. -/
def mongoRegister (st : RegistryState) (node : NodeInfo) (now : ℤ) :
    RegistryState × NodeInfo :=
  match st.find? (fun r => r.fingerprint == node.fingerprint) with
  | some existing =>
    let updated : NodeInfo :=
      { existing with hostname := node.hostname, ip := node.ip, os := node.os,
                      licenseKey := node.licenseKey, lastSeenAt := now }
    (st.map (fun r => if r.fingerprint == node.fingerprint then updated else r),
     updated)
  | none =>
    let inserted : NodeInfo :=
      { node with registeredAt := now, lastSeenAt := now }
    (st ++ [inserted], inserted)

/-- PostgresRegistry.Deregister / MongoRegistry.Deregister: delete by
fingerprint; absence is not an error. -/
def regDeregister (st : RegistryState) (fp : String) : RegistryState :=
  st.filter (fun r => r.fingerprint != fp)

/-- PostgresRegistry.Count / MongoRegistry.Count: number of records
carrying the license key. -/
def regCount (st : RegistryState) (key : String) : ℕ :=
  (st.filter (fun r => r.licenseKey == key)).length

/-- Comparison by registered_at used by the PostgreSQL ORDER BY clause. -/
def regLE (a b : NodeInfo) : Prop := a.registeredAt ≤ b.registeredAt

instance : DecidableRel regLE := fun a b =>
  inferInstanceAs (Decidable (a.registeredAt ≤ b.registeredAt))

instance : IsTotal NodeInfo regLE :=
  ⟨fun a b => le_total a.registeredAt b.registeredAt⟩

instance : IsTrans NodeInfo regLE :=
  ⟨fun _ _ _ h1 h2 => le_trans h1 h2⟩

/-- PostgresRegistry.List: SELECT ... WHERE license_key = $1 ORDER BY
registered_at. -/
def pgList (st : RegistryState) (key : String) : List NodeInfo :=
  List.insertionSort regLE (st.filter (fun r => r.licenseKey == key))

/-- MongoRegistry.List: Find with only the license_key filter and no sort
stage, so the documents come back in the collection's natural (storage)
order. -/
def mongoList (st : RegistryState) (key : String) : List NodeInfo :=
  st.filter (fun r => r.licenseKey == key)

/-- ValidateRequest from models.go (the version field is irrelevant to the
claims and the Manager never sets it). -/
structure ValidateRequest where
  licenseKey : String
  fingerprint : String
  deriving DecidableEq, Repr

/-- ValidateResponse from models.go. -/
structure ValidateResponse where
  valid : Bool
  reason : String
  plan : String
  expiresAt : Option ℤ
  features : Option Features
  activationRemaining : ℤ
  deriving DecidableEq, Repr

/-- LicenseInfo, the aggregate result of the enforcement pipeline.
Modelled from the spec: the models.go present in the tree predates the
registry-enabled Manager and lacks the node count field, which license.go
sets; per the spec the aggregate carries valid, license key, plan,
feature map, expiration, fingerprint and node count. -/
structure LicenseInfo where
  valid : Bool
  licenseKey : String
  plan : String
  features : Option Features
  expiresAt : Option ℤ
  fingerprint : String
  nodeCount : ℕ
  deriving DecidableEq, Repr

/-- OnlineClient.Validate from online.go: when the request fingerprint is
empty and a client-level fingerprint is configured, the client-level one
is substituted; the (possibly rewritten) request is then sent.  The HTTP
round trip is the send parameter; the sent request is returned alongside
the outcome so theorems can speak about it. -/
def clientValidate (clientFingerprint : String)
    (send : ValidateRequest → Except String ValidateResponse)
    (req : ValidateRequest) :
    ValidateRequest × Except String ValidateResponse :=
  let req := if req.fingerprint = "" ∧ clientFingerprint ≠ ""
             then { req with fingerprint := clientFingerprint } else req
  (req, send req)

/-- The registry calls ValidateAndEnforce makes, in order. -/
inductive RegCall
  | registerCall (node : NodeInfo)
  | countCall (key : String)
  | deregisterCall (fp : String)
  deriving DecidableEq, Repr

/-- The errors Manager.ValidateAndEnforce can return. -/
inductive MError
  | validateFailed (msg : String)
  | limitExceeded (e : LimitErr)
  deriving DecidableEq, Repr

/-- Everything observable about one ValidateAndEnforce call: the Go return
pair, the registry state afterwards, and the list of registry calls. -/
structure MOutcome where
  info : Option LicenseInfo
  err : Option MError
  registry : Option RegistryState
  trace : List RegCall
  deriving DecidableEq, Repr

/-- MOutcome plus the request that was actually sent to the server. -/
structure MResult where
  info : Option LicenseInfo
  err : Option MError
  registry : Option RegistryState
  sentRequest : Option ValidateRequest
  trace : List RegCall
  deriving DecidableEq, Repr

/-- The license.go ValidateAndEnforce control flow from the point where
the validate outcome is in hand: invalid responses return an Invalid
LicenseInfo with no error; then limits are extracted, CPU is checked, and
if a registry is configured the node is registered, counted, and
deregistered again when the node-count check fails. -/
def ValidateAndEnforceCore (vres : Except String ValidateResponse)
    (fingerprint : String) (numCPU : ℤ) (hostname goos : String)
    (registry : Option RegistryState) (now : ℤ)
    (licenseKey : String) : MOutcome :=
  match vres with
  | .error msg => ⟨none, some (.validateFailed msg), registry, []⟩
  | .ok resp =>
    if resp.valid = false then
      ⟨some { valid := false, licenseKey := licenseKey, plan := "",
              features := none, expiresAt := none,
              fingerprint := fingerprint, nodeCount := 0 },
       none, registry, []⟩
    else
      let limits := ExtractHardwareLimits resp.features
      match CheckCPU limits numCPU with
      | some e => ⟨none, some (.limitExceeded e), registry, []⟩
      | none =>
        let info : LicenseInfo :=
          { valid := true, licenseKey := licenseKey, plan := "",
            features := resp.features, expiresAt := resp.expiresAt,
            fingerprint := fingerprint, nodeCount := 0 }
        match registry with
        | none => ⟨some info, none, none, []⟩
        | some st =>
          let node : NodeInfo :=
            { fingerprint := fingerprint, hostname := hostname, ip := "",
              os := goos, licenseKey := licenseKey,
              registeredAt := 0, lastSeenAt := 0 }
          let st1 := (pgRegister st node now).1
          let cnt := regCount st1 licenseKey
          match CheckNodeCount limits (cnt : ℤ) with
          | some e =>
            ⟨none, some (.limitExceeded e), some (regDeregister st1 fingerprint),
             [.registerCall node, .countCall licenseKey,
              .deregisterCall fingerprint]⟩
          | none =>
            ⟨some { info with nodeCount := cnt }, none, some st1,
             [.registerCall node, .countCall licenseKey]⟩

/-- Manager.ValidateAndEnforce from license.go (the registry-enabled
Manager): the fingerprint is always the freshly generated one
(GenerateFingerprint, abstracted as genFingerprint), passed to
OnlineClient.Validate, and the rest is ValidateAndEnforceCore. -/
def ValidateAndEnforce (clientFingerprint genFingerprint : String)
    (send : ValidateRequest → Except String ValidateResponse)
    (numCPU : ℤ) (hostname goos : String)
    (registry : Option RegistryState) (now : ℤ)
    (licenseKey : String) : MResult :=
  let fingerprint := genFingerprint
  let out := clientValidate clientFingerprint send ⟨licenseKey, fingerprint⟩
  let c := ValidateAndEnforceCore out.2 fingerprint numCPU hostname goos
             registry now licenseKey
  ⟨c.info, c.err, c.registry, some out.1, c.trace⟩

/-- resolveFingerprint from the Manager variant without a registry: the
client-level fingerprint when a client is set and it is non-empty, else
the freshly generated one. -/
def resolveFingerprint (hasClient : Bool)
    (clientFingerprint genFingerprint : String) : String :=
  if hasClient ∧ clientFingerprint ≠ "" then clientFingerprint
  else genFingerprint

/-- The control flow of the no-registry Manager variant after the
validate outcome is in hand: invalid responses return an Invalid
LicenseInfo with no error, then limits are extracted and CPU is checked,
and on success the LicenseInfo carries the plan. -/
def NoRegistryCore (vres : Except String ValidateResponse)
    (fingerprint : String) (numCPU : ℤ) (licenseKey : String) : MOutcome :=
  match vres with
  | .error msg => ⟨none, some (.validateFailed msg), none, []⟩
  | .ok resp =>
    if resp.valid = false then
      ⟨some { valid := false, licenseKey := licenseKey, plan := "",
              features := none, expiresAt := none,
              fingerprint := fingerprint, nodeCount := 0 },
       none, none, []⟩
    else
      let limits := ExtractHardwareLimits resp.features
      match CheckCPU limits numCPU with
      | some e => ⟨none, some (.limitExceeded e), none, []⟩
      | none =>
        ⟨some { valid := true, licenseKey := licenseKey, plan := resp.plan,
                features := resp.features, expiresAt := resp.expiresAt,
                fingerprint := fingerprint, nodeCount := 0 },
         none, none, []⟩

/-- ValidateAndEnforce of the Manager variant without a registry: resolve
the fingerprint via resolveFingerprint (a client is required, so hasClient
is true), validate, and continue with NoRegistryCore. -/
def ValidateAndEnforceNoRegistry (clientFingerprint genFingerprint : String)
    (send : ValidateRequest → Except String ValidateResponse)
    (numCPU : ℤ) (licenseKey : String) : MResult :=
  let fingerprint := resolveFingerprint true clientFingerprint genFingerprint
  let out := clientValidate clientFingerprint send ⟨licenseKey, fingerprint⟩
  let c := NoRegistryCore out.2 fingerprint numCPU licenseKey
  ⟨c.info, c.err, c.registry, some out.1, c.trace⟩

/-- A 32-byte key of zeros, the decoding of the trusted key "TKEY" in the
concrete crypto environments below. -/
def key32A : List ℕ := List.replicate 32 0

/-- A 32-byte key of ones, the decoding of the embedded key "EKEY". -/
def key32B : List ℕ := List.replicate 32 1

/-- Concrete license payload expiring at instant 200. -/
def c1Data : OfflineLicenseData :=
  ⟨"CNW-1", "comp", "app", "pro", some [("max_nodes", .num 10)], 200, 50⟩

/-- Concrete envelope whose embedded public key is "EKEY". -/
def c1File : OfflineLicenseFile := ⟨[9, 9], "SIG", "EKEY"⟩

/-- Concrete crypto environment in which the [1] input parses to c1File
and the signature is valid precisely under the trusted key "TKEY". -/
def c1EnvT : CryptoEnv :=
  { parseEnvelope := fun raw => if raw = [1] then some c1File else none
    b64Decode := fun s =>
      if s = "TKEY" then some key32A
      else if s = "EKEY" then some key32B
      else if s = "SIG" then some [7] else none
    edVerify := fun k m sg => k == key32A && m == [9, 9] && sg == [7]
    parseData := fun m => if m = [9, 9] then some c1Data else none }

/-- Same environment except the signature is valid precisely under the
embedded key "EKEY", not under the trusted key. -/
def c1EnvE : CryptoEnv :=
  { c1EnvT with edVerify := fun k m sg => k == key32B && m == [9, 9] && sg == [7] }

/-- Concrete license payload that expired at instant 100. -/
def c2Data : OfflineLicenseData :=
  ⟨"CNW-2", "comp", "app", "pro", some [], 100, 50⟩

/-- Crypto environment for the expiry witness: valid under "TKEY", payload
c2Data. -/
def c2Env : CryptoEnv :=
  { c1EnvT with parseData := fun m => if m = [9, 9] then some c2Data else none }

/-- A server round trip that always reports an invalid license. -/
def invalidSend : ValidateRequest → Except String ValidateResponse :=
  fun _ => .ok ⟨false, "license not found", "", none, none, 0⟩

/-- A server round trip that always reports a valid license whose features
set max_nodes to 2. -/
def maxNodes2Send : ValidateRequest → Except String ValidateResponse :=
  fun _ => .ok ⟨true, "", "pro", none, some [("max_nodes", .num 2)], 0⟩

/-- A registry already holding two other nodes for license key "K". -/
def twoNodeState : RegistryState :=
  [⟨"f1", "h1", "", "linux", "K", 1, 1⟩, ⟨"f2", "h2", "", "linux", "K", 2, 2⟩]

/-- Registry content whose storage order disagrees with registered_at
order: the record registered at 5 was stored before the one registered
at 3. -/
def outOfOrderState : RegistryState :=
  [⟨"f2", "h2", "", "linux", "K", 5, 5⟩, ⟨"f1", "h1", "", "linux", "K", 3, 3⟩]

/-- C1: with a non-empty configured trusted key T, Verify resolves the
verification key to T and ignores the well-formed embedded key E: a
payload valid under T verifies successfully even though E is present, and
a payload not valid under T (for instance signed under E) fails with
SignatureInvalid. -/
theorem c1_trusted_key_wins
    (env : CryptoEnv) (now : ℤ) (T : String) (raw : List ℕ)
    (file : OfflineLicenseFile) (kT kE s : List ℕ)
    (hT : T ≠ "")
    (hparse : env.parseEnvelope raw = some file)
    (hlic : file.license.length ≠ 0)
    (hsig : file.signature ≠ "")
    (hdiff : file.publicKey ≠ T)
    (hkE : env.b64Decode file.publicKey = some kE)
    (hkElen : kE.length = 32)
    (hkT : env.b64Decode T = some kT)
    (hkTlen : kT.length = 32)
    (hs : env.b64Decode file.signature = some s) :
    (∀ d, env.parseData file.license = some d →
      ¬(d.expiresAt ≠ 0 ∧ d.expiresAt < now) →
      env.edVerify kT file.license s = true →
      OfflineValidator.Verify env now ⟨T⟩ raw = ⟨some d, none⟩) ∧
    (env.edVerify kT file.license s = false →
      OfflineValidator.Verify env now ⟨T⟩ raw = ⟨none, some .signatureInvalid⟩) := by
  constructor
  · intro d hd hexp hver
    simp [OfflineValidator.Verify, hparse, hlic, hsig, hT, hkT, hkTlen, hs,
          hver, hd, hexp]
  · intro hver
    simp [OfflineValidator.Verify, hparse, hlic, hsig, hT, hkT, hkTlen, hs, hver]

/-- Witness for C1 at the concrete environments: under c1EnvT the payload
is valid under the trusted key and verifies despite the embedded "EKEY";
under c1EnvE it is valid only under the embedded key and fails with
SignatureInvalid. -/
theorem c1_trusted_key_wins_witness :
    OfflineValidator.Verify c1EnvT 150 ⟨"TKEY"⟩ [1] = ⟨some c1Data, none⟩ ∧
    OfflineValidator.Verify c1EnvE 150 ⟨"TKEY"⟩ [1] =
      ⟨none, some .signatureInvalid⟩ := by
  constructor
  · exact (c1_trusted_key_wins c1EnvT 150 "TKEY" [1] c1File key32A key32B [7]
      (by decide) (by decide) (by decide) (by decide) (by decide) (by decide)
      (by decide) (by decide) (by decide) (by decide)).1 c1Data (by decide)
      (by decide) (by decide)
  · exact (c1_trusted_key_wins c1EnvE 150 "TKEY" [1] c1File key32A key32B [7]
      (by decide) (by decide) (by decide) (by decide) (by decide) (by decide)
      (by decide) (by decide) (by decide) (by decide)).2 (by decide)

/-- C2: when the signature verifies and the payload parses, a set
expiration instant strictly before now makes Verify return the fully
parsed data together with the LicenseExpired error, not a nil result. -/
theorem c2_expired_returns_data
    (env : CryptoEnv) (now : ℤ) (v : OfflineValidator) (raw : List ℕ)
    (file : OfflineLicenseFile) (kb s : List ℕ) (d : OfflineLicenseData)
    (hparse : env.parseEnvelope raw = some file)
    (hlic : file.license.length ≠ 0)
    (hsig : file.signature ≠ "")
    (hkey : (if v.trustedPublicKey = "" then file.publicKey
             else v.trustedPublicKey) ≠ "")
    (hkb : env.b64Decode (if v.trustedPublicKey = "" then file.publicKey
             else v.trustedPublicKey) = some kb)
    (hkblen : kb.length = 32)
    (hs : env.b64Decode file.signature = some s)
    (hver : env.edVerify kb file.license s = true)
    (hd : env.parseData file.license = some d)
    (hset : d.expiresAt ≠ 0)
    (hbefore : d.expiresAt < now) :
    OfflineValidator.Verify env now v raw = ⟨some d, some .licenseExpired⟩ := by
  simp [OfflineValidator.Verify, hparse, hlic, hsig, hkey, hkb, hkblen, hs,
        hver, hd, hset, hbefore]

/-- Witness for C2: the payload expiring at 100 is returned in full next
to the LicenseExpired error at now = 150. -/
theorem c2_expired_returns_data_witness :
    OfflineValidator.Verify c2Env 150 ⟨"TKEY"⟩ [1] =
      ⟨some c2Data, some .licenseExpired⟩ := by
  exact c2_expired_returns_data c2Env 150 ⟨"TKEY"⟩ [1] c1File key32A [7] c2Data
    (by decide) (by decide) (by decide) (by decide) (by decide) (by decide)
    (by decide) (by decide) (by decide) (by decide) (by decide)

/-- C3: mapServerError follows the exact mapping table, and every mapped
result answers both recovery queries: errors.Is against the sentinel is
true and errors.As extracts the original status/code/message. -/
theorem c3_mapServerError_table (st : ℤ) (code msg : String) :
    (code = "NOT_FOUND" →
      mapServerError ⟨st, code, msg⟩ = .mapped .licenseNotFound ⟨st, code, msg⟩) ∧
    (code = "FORBIDDEN" → msg = "license expired" →
      mapServerError ⟨st, code, msg⟩ = .mapped .licenseExpired ⟨st, code, msg⟩) ∧
    (code = "FORBIDDEN" → msg ≠ "license expired" →
      mapServerError ⟨st, code, msg⟩ = .mapped .licenseInactive ⟨st, code, msg⟩) ∧
    (code = "ACTIVATION_LIMIT" →
      mapServerError ⟨st, code, msg⟩ = .mapped .activationLimit ⟨st, code, msg⟩) ∧
    (code ≠ "NOT_FOUND" → code ≠ "FORBIDDEN" → code ≠ "ACTIVATION_LIMIT" →
      mapServerError ⟨st, code, msg⟩ = .unmapped ⟨st, code, msg⟩) ∧
    (∀ sen se, mapServerError ⟨st, code, msg⟩ = .mapped sen se →
      errIsSentinel (mapServerError ⟨st, code, msg⟩) sen = true ∧
      errAsServerError (mapServerError ⟨st, code, msg⟩) = some ⟨st, code, msg⟩) := by
  refine ⟨?_, ?_, ?_, ?_, ?_, ?_⟩
  · intro h; simp [mapServerError, h]
  · intro h1 h2; simp [mapServerError, h1, h2]
  · intro h1 h2; simp [mapServerError, h1, h2]
  · intro h; simp [mapServerError, h]
  · intro h1 h2 h3; simp [mapServerError, h1, h2, h3]
  · intro sen se h
    unfold mapServerError at h ⊢
    unfold errIsSentinel errAsServerError
    split_ifs at h ⊢ <;> simp_all

/-- Witness for C3 at concrete server errors: a FORBIDDEN "license
expired" body maps to the LicenseExpired sentinel, and a 409
ACTIVATION_LIMIT error satisfies both recovery queries. -/
theorem c3_mapServerError_table_witness :
    mapServerError ⟨403, "FORBIDDEN", "license expired"⟩ =
      .mapped .licenseExpired ⟨403, "FORBIDDEN", "license expired"⟩ ∧
    errIsSentinel (mapServerError ⟨409, "ACTIVATION_LIMIT", "activation limit reached"⟩)
      .activationLimit = true ∧
    errAsServerError (mapServerError ⟨409, "ACTIVATION_LIMIT", "activation limit reached"⟩) =
      some ⟨409, "ACTIVATION_LIMIT", "activation limit reached"⟩ := by
  have h1 := (c3_mapServerError_table 403 "FORBIDDEN" "license expired").2.1 rfl rfl
  have hm := (c3_mapServerError_table 409 "ACTIVATION_LIMIT"
    "activation limit reached").2.2.2.1 rfl
  have h2 := (c3_mapServerError_table 409 "ACTIVATION_LIMIT"
    "activation limit reached").2.2.2.2.2 .activationLimit
    ⟨409, "ACTIVATION_LIMIT", "activation limit reached"⟩ hm
  exact ⟨h1, h2.1, h2.2⟩

/-- C8: with a positive limit N the checks succeed exactly when the count
is at most N (equality allowed), fail with the semantic error carrying
the count and the limit exactly when the count exceeds N, and a limit of
0 always succeeds. -/
theorem c8_limit_boundary (N m c : ℤ) (hN : 0 < N) :
    (CheckCPU ⟨N, m⟩ c = none ↔ c ≤ N) ∧
    (CheckCPU ⟨N, m⟩ c = some (.cpuLimitExceeded c N) ↔ N < c) ∧
    (CheckNodeCount ⟨m, N⟩ c = none ↔ c ≤ N) ∧
    (CheckNodeCount ⟨m, N⟩ c = some (.nodeLimitExceeded c N) ↔ N < c) ∧
    CheckCPU ⟨0, m⟩ c = none ∧ CheckNodeCount ⟨m, 0⟩ c = none := by
  have hN' : ¬ N ≤ 0 := not_le.mpr hN
  by_cases hc : N < c
  · simp [CheckCPU, CheckNodeCount, hN', hc]
  · simp [CheckCPU, CheckNodeCount, hN', hc]
    omega

/-- Witness for C8 with limit 2: counts 2 succeed, counts 3 fail with the
error carrying count 3 and limit 2. -/
theorem c8_limit_boundary_witness :
    CheckCPU ⟨2, 0⟩ 2 = none ∧
    CheckCPU ⟨2, 0⟩ 3 = some (.cpuLimitExceeded 3 2) ∧
    CheckNodeCount ⟨0, 2⟩ 2 = none ∧
    CheckNodeCount ⟨0, 2⟩ 3 = some (.nodeLimitExceeded 3 2) :=
  ⟨(c8_limit_boundary 2 0 2 (by decide)).1.mpr (by decide),
   (c8_limit_boundary 2 0 3 (by decide)).2.1.mpr (by decide),
   (c8_limit_boundary 2 0 2 (by decide)).2.2.1.mpr (by decide),
   (c8_limit_boundary 2 0 3 (by decide)).2.2.2.1.mpr (by decide)⟩

/-- C10: any non-positive limit behaves exactly like the documented 0
(always succeed), including the negative limits ExtractHardwareLimits
produces by truncating a negative JSON number toward zero. -/
theorem c10_nonpositive_limit (limits : HardwareLimits) (c : ℤ) :
    (limits.maxCPUPerNode ≤ 0 → CheckCPU limits c = none) ∧
    (limits.maxNodes ≤ 0 → CheckNodeCount limits c = none) ∧
    ExtractHardwareLimits (some [("max_nodes", .num (-(7 / 2)))]) = ⟨0, -3⟩ ∧
    CheckNodeCount (ExtractHardwareLimits (some [("max_nodes", .num (-(7 / 2)))])) c
      = none ∧
    ExtractHardwareLimits (some [("max_cpu_per_node", .intVal (-5))]) = ⟨-5, 0⟩ ∧
    CheckCPU (ExtractHardwareLimits (some [("max_cpu_per_node", .intVal (-5))])) c
      = none := by
  have hq : ((-(7 / 2) : ℚ)).num = -7 := by norm_num
  have hd : ((-(7 / 2) : ℚ)).den = 2 := by norm_num
  have h1 : ExtractHardwareLimits (some [("max_nodes", .num (-(7 / 2)))])
      = ⟨0, -3⟩ := by
    simp [ExtractHardwareLimits, toInt, truncTowardZero, hq, hd, List.lookup]
    decide
  have h2 : ExtractHardwareLimits (some [("max_cpu_per_node", .intVal (-5))])
      = ⟨-5, 0⟩ := by decide
  refine ⟨fun h => by simp [CheckCPU, h], fun h => by simp [CheckNodeCount, h],
    h1, ?_, h2, ?_⟩
  · rw [h1]; simp [CheckNodeCount]
  · rw [h2]; simp [CheckCPU]

/-- Witness for C10 at a fully negative limit pair and count 100. -/
theorem c10_nonpositive_limit_witness :
    CheckCPU ⟨-1, -1⟩ 100 = none ∧ CheckNodeCount ⟨-1, -1⟩ 100 = none :=
  ⟨(c10_nonpositive_limit ⟨-1, -1⟩ 100).1 (by decide),
   (c10_nonpositive_limit ⟨-1, -1⟩ 100).2.1 (by decide)⟩

/-- Every record surviving regDeregister carries a different fingerprint. -/
theorem regDeregister_no_fp (st : RegistryState) (fp : String) :
    ∀ r ∈ regDeregister st fp, r.fingerprint ≠ fp := by
  intro r hr
  have h := (List.mem_filter.mp hr).2
  simpa using h

/-- C5: a valid=false response makes ValidateAndEnforce return an Invalid
LicenseInfo with no error, leave the registry untouched, make no registry
call, and ignore the CPU count entirely. -/
theorem c5_invalid_short_circuit
    (clientFP genFP : String)
    (send : ValidateRequest → Except String ValidateResponse)
    (numCPU numCPU' : ℤ) (hostname goos : String)
    (registry : Option RegistryState) (now : ℤ) (key : String)
    (resp : ValidateResponse)
    (hsend : (clientValidate clientFP send ⟨key, genFP⟩).2 = .ok resp)
    (hinvalid : resp.valid = false) :
    (ValidateAndEnforce clientFP genFP send numCPU hostname goos registry now key).info
      = some ⟨false, key, "", none, none, genFP, 0⟩ ∧
    (ValidateAndEnforce clientFP genFP send numCPU hostname goos registry now key).err
      = none ∧
    (ValidateAndEnforce clientFP genFP send numCPU hostname goos registry now key).registry
      = registry ∧
    (ValidateAndEnforce clientFP genFP send numCPU hostname goos registry now key).trace
      = [] ∧
    ValidateAndEnforce clientFP genFP send numCPU hostname goos registry now key
      = ValidateAndEnforce clientFP genFP send numCPU' hostname goos registry now key := by
  refine ⟨?_, ?_, ?_, ?_, ?_⟩ <;>
    simp [ValidateAndEnforce, ValidateAndEnforceCore, hsend, hinvalid]

/-- C4: with a registry configured, whenever the node-count check fails
after this node has been registered, the just-registered node is
deregistered before the NodeLimitExceeded error is returned, so no record
with this fingerprint remains in the registry. -/
theorem c4_rollback_on_node_limit
    (clientFP genFP : String)
    (send : ValidateRequest → Except String ValidateResponse)
    (numCPU : ℤ) (hostname goos : String)
    (st : RegistryState) (now : ℤ) (key : String)
    (resp : ValidateResponse) (e : LimitErr)
    (hsend : (clientValidate clientFP send ⟨key, genFP⟩).2 = .ok resp)
    (hvalid : resp.valid = true)
    (hcpu : CheckCPU (ExtractHardwareLimits resp.features) numCPU = none)
    (hnode : CheckNodeCount (ExtractHardwareLimits resp.features)
      ((regCount (pgRegister st ⟨genFP, hostname, "", goos, key, 0, 0⟩ now).1 key : ℕ) : ℤ)
      = some e) :
    (ValidateAndEnforce clientFP genFP send numCPU hostname goos (some st) now key).info
      = none ∧
    (ValidateAndEnforce clientFP genFP send numCPU hostname goos (some st) now key).err
      = some (.limitExceeded e) ∧
    (ValidateAndEnforce clientFP genFP send numCPU hostname goos (some st) now key).registry
      = some (regDeregister
          (pgRegister st ⟨genFP, hostname, "", goos, key, 0, 0⟩ now).1 genFP) ∧
    (∀ rec ∈ regDeregister
        (pgRegister st ⟨genFP, hostname, "", goos, key, 0, 0⟩ now).1 genFP,
      rec.fingerprint ≠ genFP) ∧
    (ValidateAndEnforce clientFP genFP send numCPU hostname goos (some st) now key).trace
      = [.registerCall ⟨genFP, hostname, "", goos, key, 0, 0⟩, .countCall key,
         .deregisterCall genFP] := by
  refine ⟨?_, ?_, ?_, regDeregister_no_fp _ _, ?_⟩ <;>
    simp [ValidateAndEnforce, ValidateAndEnforceCore, hsend, hvalid, hcpu, hnode]

/-- Witness for C5 (end-to-end scenario A): a "license not found"
valid=false response yields an Invalid LicenseInfo, no error, an
untouched registry, and an empty registry-call trace. -/
theorem c5_invalid_short_circuit_witness :
    (ValidateAndEnforce "" "f9" invalidSend 4 "h" "linux" (some twoNodeState) 7 "K").info
      = some ⟨false, "K", "", none, none, "f9", 0⟩ ∧
    (ValidateAndEnforce "" "f9" invalidSend 4 "h" "linux" (some twoNodeState) 7 "K").err
      = none ∧
    (ValidateAndEnforce "" "f9" invalidSend 4 "h" "linux" (some twoNodeState) 7 "K").registry
      = some twoNodeState ∧
    (ValidateAndEnforce "" "f9" invalidSend 4 "h" "linux" (some twoNodeState) 7 "K").trace
      = [] := by
  have h := c5_invalid_short_circuit "" "f9" invalidSend 4 4 "h" "linux"
    (some twoNodeState) 7 "K" ⟨false, "license not found", "", none, none, 0⟩
    rfl (by decide)
  exact ⟨h.1, h.2.1, h.2.2.1, h.2.2.2.1⟩

/-- Witness for C4 (end-to-end scenario B): with max_nodes = 2 and two
other nodes already registered for "K", registering "f3" and counting 3
triggers NodeLimitExceeded and the rollback removes the "f3" record. -/
theorem c4_rollback_on_node_limit_witness :
    (ValidateAndEnforce "" "f3" maxNodes2Send 1 "h3" "linux" (some twoNodeState) 10 "K").err
      = some (.limitExceeded (.nodeLimitExceeded 3 2)) ∧
    (ValidateAndEnforce "" "f3" maxNodes2Send 1 "h3" "linux" (some twoNodeState) 10 "K").registry
      = some (regDeregister
          (pgRegister twoNodeState ⟨"f3", "h3", "", "linux", "K", 0, 0⟩ 10).1 "f3") ∧
    (ValidateAndEnforce "" "f3" maxNodes2Send 1 "h3" "linux" (some twoNodeState) 10 "K").trace
      = [.registerCall ⟨"f3", "h3", "", "linux", "K", 0, 0⟩, .countCall "K",
         .deregisterCall "f3"] := by
  have h := c4_rollback_on_node_limit "" "f3" maxNodes2Send 1 "h3" "linux"
    twoNodeState 10 "K" ⟨true, "", "pro", none, some [("max_nodes", .num 2)], 0⟩
    (.nodeLimitExceeded 3 2) rfl (by decide) (by decide) (by decide)
  exact ⟨h.2.1, h.2.2.1, h.2.2.2.2⟩

/-- Every LicenseInfo ValidateAndEnforceCore returns carries the
fingerprint it was given. -/
theorem core_info_fingerprint (vres : Except String ValidateResponse)
    (fp : String) (numCPU : ℤ) (hostname goos : String)
    (registry : Option RegistryState) (now : ℤ) (key : String) :
    ∀ info, (ValidateAndEnforceCore vres fp numCPU hostname goos registry now key).info
      = some info → info.fingerprint = fp := by
  intro info h
  unfold ValidateAndEnforceCore at h
  simp only [] at h
  repeat' split at h
  all_goals simp at h
  all_goals subst h
  all_goals rfl

/-- Every LicenseInfo NoRegistryCore returns carries the fingerprint it
was given. -/
theorem noRegistryCore_info_fingerprint (vres : Except String ValidateResponse)
    (fp : String) (numCPU : ℤ) (key : String) :
    ∀ info, (NoRegistryCore vres fp numCPU key).info = some info →
      info.fingerprint = fp := by
  intro info h
  unfold NoRegistryCore at h
  simp only [] at h
  repeat' split at h
  all_goals simp at h
  all_goals subst h
  all_goals rfl

/-- C9 counterexample: in the registry-enabled Manager (license.go) a
configured client-level fingerprint "cfg" is NOT used: the validation
request and the returned LicenseInfo carry the freshly generated "gen". -/
theorem c9_counterexample_generated_wins :
    (ValidateAndEnforce "cfg" "gen" invalidSend 8 "host" "linux" none 0 "K").sentRequest
      = some ⟨"K", "gen"⟩ ∧
    ((ValidateAndEnforce "cfg" "gen" invalidSend 8 "host" "linux" none 0 "K").info.map
      LicenseInfo.fingerprint) = some "gen" ∧
    ("gen" : String) ≠ "cfg" := by
  refine ⟨rfl, rfl, by decide⟩

/-- C9 amended: the registry-enabled ValidateAndEnforce always uses the
freshly generated fingerprint for the request and the returned
LicenseInfo, ignoring the client-level value; the client-level-first
resolution holds in the no-registry Manager variant, whose
resolveFingerprint prefers a non-empty client fingerprint and falls back
to the generated one. -/
theorem c9_amended_fingerprint_resolution
    (clientFP genFP key : String)
    (send : ValidateRequest → Except String ValidateResponse)
    (numCPU : ℤ) (hostname goos : String)
    (registry : Option RegistryState) (now : ℤ) :
    (genFP ≠ "" →
      (ValidateAndEnforce clientFP genFP send numCPU hostname goos registry now key).sentRequest
        = some ⟨key, genFP⟩) ∧
    (∀ info,
      (ValidateAndEnforce clientFP genFP send numCPU hostname goos registry now key).info
        = some info → info.fingerprint = genFP) ∧
    (clientFP ≠ "" →
      resolveFingerprint true clientFP genFP = clientFP ∧
      (ValidateAndEnforceNoRegistry clientFP genFP send numCPU key).sentRequest
        = some ⟨key, clientFP⟩ ∧
      (∀ info,
        (ValidateAndEnforceNoRegistry clientFP genFP send numCPU key).info
          = some info → info.fingerprint = clientFP)) ∧
    (clientFP = "" → resolveFingerprint true clientFP genFP = genFP) := by
  refine ⟨?_, ?_, ?_, ?_⟩
  · intro hg
    simp [ValidateAndEnforce, clientValidate, hg]
  · intro info h
    exact core_info_fingerprint _ _ _ _ _ _ _ _ info h
  · intro hc
    have hres : resolveFingerprint true clientFP genFP = clientFP := by
      simp [resolveFingerprint, hc]
    refine ⟨hres, ?_, ?_⟩
    · simp [ValidateAndEnforceNoRegistry, clientValidate, hres, hc]
    · intro info h
      have h' : (NoRegistryCore
          (clientValidate clientFP send ⟨key, resolveFingerprint true clientFP genFP⟩).2
          (resolveFingerprint true clientFP genFP) numCPU key).info = some info := h
      have := noRegistryCore_info_fingerprint _ _ _ _ info h'
      rwa [hres] at this
  · intro hc
    simp [resolveFingerprint, hc]

/-- Witness for the amended C9: the registry Manager sends the generated
"gen" even with "cfg" configured, while the no-registry variant sends the
configured "cfg". -/
theorem c9_amended_fingerprint_resolution_witness :
    (ValidateAndEnforce "cfg" "gen" invalidSend 8 "host" "linux" none 0 "K").sentRequest
      = some ⟨"K", "gen"⟩ ∧
    (ValidateAndEnforceNoRegistry "cfg" "gen" invalidSend 8 "K").sentRequest
      = some ⟨"K", "cfg"⟩ := by
  refine ⟨(c9_amended_fingerprint_resolution "cfg" "gen" "K" invalidSend 8 "host"
    "linux" none 0).1 (by decide),
    ((c9_amended_fingerprint_resolution "cfg" "gen" "K" invalidSend 8 "host"
    "linux" none 0).2.2.1 (by decide)).2.1⟩

/-- C7 counterexample: on a store whose storage order disagrees with
registered_at order, the PostgreSQL List sorts ascending while the
MongoDB List returns storage order, so the two backends do not produce
the same ordering. -/
theorem c7_counterexample_mongo_unsorted :
    pgList outOfOrderState "K"
      = [⟨"f1", "h1", "", "linux", "K", 3, 3⟩, ⟨"f2", "h2", "", "linux", "K", 5, 5⟩] ∧
    mongoList outOfOrderState "K"
      = [⟨"f2", "h2", "", "linux", "K", 5, 5⟩, ⟨"f1", "h1", "", "linux", "K", 3, 3⟩] ∧
    mongoList outOfOrderState "K" ≠ pgList outOfOrderState "K" := by
  refine ⟨by decide, by decide, by decide⟩

/-- C7 amended: the PostgreSQL List returns the records carrying the key
sorted by registered_at ascending (a permutation of the matching
records), while the MongoDB List returns exactly the matching records in
storage order with no sort, so the ordering guarantee holds only for the
PostgreSQL backend. -/
theorem c7_amended_list_ordering (st : RegistryState) (key : String) :
    List.Sorted regLE (pgList st key) ∧
    List.Perm (pgList st key) (st.filter (fun r => r.licenseKey == key)) ∧
    mongoList st key = st.filter (fun r => r.licenseKey == key) :=
  ⟨List.sorted_insertionSort regLE _, List.perm_insertionSort regLE _, rfl⟩

/-- Updating-by-predicate leaves a list unchanged when no element matches. -/
theorem map_update_skip {α : Type} (p : α → Bool) (x : α) :
    ∀ l : List α, (∀ r ∈ l, p r = false) →
      l.map (fun r => if p r then x else r) = l := by
  intro l h
  induction l with
  | nil => rfl
  | cons a t ih =>
    have ha : p a = false := h a (List.mem_cons_self a t)
    simp only [List.map_cons, ha, Bool.false_eq_true, if_false]
    rw [ih fun r hr => h r (List.mem_cons_of_mem a hr)]

/-- pgRegister on a fingerprint not yet present: the record is appended
with both timestamps set to now, and returned as stored. -/
theorem pgRegister_fresh (st : RegistryState) (n : NodeInfo) (t : ℤ)
    (h : ∀ r ∈ st, (r.fingerprint == n.fingerprint) = false) :
    pgRegister st n t = (st ++ [{ n with registeredAt := t, lastSeenAt := t }],
      { n with registeredAt := t, lastSeenAt := t }) := by
  unfold pgRegister
  rw [List.find?_eq_none.mpr (fun x hx => by simp [h x hx])]

/-- pgRegister on an existing fingerprint: the row is updated in place,
keeping registered_at from the existing row. -/
theorem pgRegister_hit (st : RegistryState) (n : NodeInfo) (t : ℤ)
    (existing : NodeInfo)
    (h : st.find? (fun r => r.fingerprint == n.fingerprint) = some existing) :
    pgRegister st n t = (st.map (fun r => if r.fingerprint == n.fingerprint
        then { n with registeredAt := existing.registeredAt, lastSeenAt := t }
        else r),
      { n with registeredAt := existing.registeredAt, lastSeenAt := t }) := by
  unfold pgRegister
  rw [h]

/-- mongoRegister on a fingerprint not yet present behaves like the
PostgreSQL insert branch. -/
theorem mongoRegister_fresh (st : RegistryState) (n : NodeInfo) (t : ℤ)
    (h : ∀ r ∈ st, (r.fingerprint == n.fingerprint) = false) :
    mongoRegister st n t = (st ++ [{ n with registeredAt := t, lastSeenAt := t }],
      { n with registeredAt := t, lastSeenAt := t }) := by
  unfold mongoRegister
  rw [List.find?_eq_none.mpr (fun x hx => by simp [h x hx])]

/-- mongoRegister on an existing fingerprint: the document is updated via
Set of the caller fields and last_seen_at, keeping registered_at. -/
theorem mongoRegister_hit (st : RegistryState) (n : NodeInfo) (t : ℤ)
    (existing : NodeInfo)
    (h : st.find? (fun r => r.fingerprint == n.fingerprint) = some existing) :
    mongoRegister st n t = (st.map (fun r => if r.fingerprint == n.fingerprint
        then { existing with hostname := n.hostname, ip := n.ip, os := n.os,
                             licenseKey := n.licenseKey, lastSeenAt := t }
        else r),
      { existing with hostname := n.hostname, ip := n.ip, os := n.os,
                      licenseKey := n.licenseKey, lastSeenAt := t }) := by
  unfold mongoRegister
  rw [h]

/-- C6: for both backends, registering the same fingerprint twice against
a store where it is fresh leaves exactly one stored record, whose
registered_at is the first call's timestamp, whose last_seen_at is the
second call's timestamp, whose caller fields come from the second call,
and which is exactly what the second call returns. -/
theorem c6_register_upsert
    (st : RegistryState) (n1 n2 : NodeInfo) (t1 t2 : ℤ)
    (hfp : n2.fingerprint = n1.fingerprint)
    (hfresh : ∀ r ∈ st, (r.fingerprint == n1.fingerprint) = false) :
    ((pgRegister (pgRegister st n1 t1).1 n2 t2).1.filter
        (fun r => r.fingerprint == n1.fingerprint))
      = [{ n2 with registeredAt := t1, lastSeenAt := t2 }] ∧
    (pgRegister (pgRegister st n1 t1).1 n2 t2).2
      = { n2 with registeredAt := t1, lastSeenAt := t2 } ∧
    ((mongoRegister (mongoRegister st n1 t1).1 n2 t2).1.filter
        (fun r => r.fingerprint == n1.fingerprint))
      = [{ n2 with registeredAt := t1, lastSeenAt := t2 }] ∧
    (mongoRegister (mongoRegister st n1 t1).1 n2 t2).2
      = { n2 with registeredAt := t1, lastSeenAt := t2 } := by
  have hfresh2 : ∀ r ∈ st, (r.fingerprint == n2.fingerprint) = false := by
    intro r hr
    rw [hfp]
    exact hfresh r hr
  have hpg1 : pgRegister st n1 t1
      = (st ++ [{ n1 with registeredAt := t1, lastSeenAt := t1 }],
         { n1 with registeredAt := t1, lastSeenAt := t1 }) :=
    pgRegister_fresh st n1 t1 hfresh
  have hmg1 : mongoRegister st n1 t1
      = (st ++ [{ n1 with registeredAt := t1, lastSeenAt := t1 }],
         { n1 with registeredAt := t1, lastSeenAt := t1 }) :=
    mongoRegister_fresh st n1 t1 hfresh
  have hs1fp : (({ n1 with registeredAt := t1, lastSeenAt := t1 }
      : NodeInfo).fingerprint == n2.fingerprint) = true := by
    show (n1.fingerprint == n2.fingerprint) = true
    rw [hfp]
    simp
  have hfind2 : (st ++ [{ n1 with registeredAt := t1, lastSeenAt := t1 }]).find?
      (fun r => r.fingerprint == n2.fingerprint)
      = some { n1 with registeredAt := t1, lastSeenAt := t1 } := by
    rw [List.find?_append,
        List.find?_eq_none.mpr (fun x hx => by simp [hfresh2 x hx])]
    simp [List.find?, hfp]
  have hmap : ∀ x : NodeInfo,
      (st ++ [{ n1 with registeredAt := t1, lastSeenAt := t1 }]).map
        (fun r : NodeInfo => if r.fingerprint == n2.fingerprint then x else r)
      = st ++ [x] := by
    intro x
    rw [List.map_append,
        map_update_skip (fun r => r.fingerprint == n2.fingerprint) x st hfresh2]
    simp [hfp]
  have hfilter : ∀ x : NodeInfo, (x.fingerprint == n1.fingerprint) = true →
      (st ++ [x]).filter (fun r => r.fingerprint == n1.fingerprint) = [x] := by
    intro x hx
    rw [List.filter_append,
        List.filter_eq_nil_iff.mpr (fun r hr => by simp [hfresh r hr])]
    simp [hx]
  have hupd : ({ { n1 with registeredAt := t1, lastSeenAt := t1 } with
        hostname := n2.hostname, ip := n2.ip, os := n2.os,
        licenseKey := n2.licenseKey, lastSeenAt := t2 } : NodeInfo)
      = { n2 with registeredAt := t1, lastSeenAt := t2 } := by
    cases n1
    cases n2
    simp_all
  have hx2 : (({ n2 with registeredAt := t1, lastSeenAt := t2 }
      : NodeInfo).fingerprint == n1.fingerprint) = true := by
    show (n2.fingerprint == n1.fingerprint) = true
    rw [hfp]
    simp
  refine ⟨?_, ?_, ?_, ?_⟩
  · rw [hpg1]
    rw [pgRegister_hit _ n2 t2 _ hfind2]
    show ((st ++ [{ n1 with registeredAt := t1, lastSeenAt := t1 }]).map _).filter _ = _
    rw [hmap]
    exact hfilter _ hx2
  · rw [hpg1]
    rw [pgRegister_hit _ n2 t2 _ hfind2]
  · rw [hmg1]
    rw [mongoRegister_hit _ n2 t2 _ hfind2]
    show ((st ++ [{ n1 with registeredAt := t1, lastSeenAt := t1 }]).map _).filter _ = _
    rw [hmap]
    rw [hupd]
    exact hfilter _ hx2
  · rw [hmg1]
    rw [mongoRegister_hit _ n2 t2 _ hfind2]
    exact hupd

/-- Witness for C6: registering fingerprint "f" twice (t1 = 10, t2 = 20)
against a store holding an unrelated node leaves one "f" record combining
the second call's fields with registered_at 10 and last_seen_at 20, in
both backends, and that record is what the second call returns. -/
theorem c6_register_upsert_witness :
    ((pgRegister (pgRegister [⟨"fx", "h", "", "linux", "K", 0, 0⟩]
        ⟨"f", "h1", "1.1", "linux", "K", 9, 9⟩ 10).1
        ⟨"f", "h2", "2.2", "darwin", "K2", 8, 8⟩ 20).1.filter
      (fun r => r.fingerprint == "f"))
      = [⟨"f", "h2", "2.2", "darwin", "K2", 10, 20⟩] ∧
    (pgRegister (pgRegister [⟨"fx", "h", "", "linux", "K", 0, 0⟩]
        ⟨"f", "h1", "1.1", "linux", "K", 9, 9⟩ 10).1
        ⟨"f", "h2", "2.2", "darwin", "K2", 8, 8⟩ 20).2
      = ⟨"f", "h2", "2.2", "darwin", "K2", 10, 20⟩ ∧
    ((mongoRegister (mongoRegister [⟨"fx", "h", "", "linux", "K", 0, 0⟩]
        ⟨"f", "h1", "1.1", "linux", "K", 9, 9⟩ 10).1
        ⟨"f", "h2", "2.2", "darwin", "K2", 8, 8⟩ 20).1.filter
      (fun r => r.fingerprint == "f"))
      = [⟨"f", "h2", "2.2", "darwin", "K2", 10, 20⟩] ∧
    (mongoRegister (mongoRegister [⟨"fx", "h", "", "linux", "K", 0, 0⟩]
        ⟨"f", "h1", "1.1", "linux", "K", 9, 9⟩ 10).1
        ⟨"f", "h2", "2.2", "darwin", "K2", 8, 8⟩ 20).2
      = ⟨"f", "h2", "2.2", "darwin", "K2", 10, 20⟩ := by
  have h := c6_register_upsert [⟨"fx", "h", "", "linux", "K", 0, 0⟩]
    ⟨"f", "h1", "1.1", "linux", "K", 9, 9⟩
    ⟨"f", "h2", "2.2", "darwin", "K2", 8, 8⟩ 10 20 rfl (by decide)
  exact ⟨h.1, h.2.1, h.2.2.1, h.2.2.2⟩
